import Mathlib

/-!
# Verification of the chippy CHIP-8 core

Shallow embedding of the chippy-rs CHIP-8 virtual machine:

* `Instruction.parse` / `Instruction.to_u16` embed the opcode decoder and
  encoder of `src/chippy/src/emu/instruction.rs`;
* `Gpu` embeds the framebuffer of `src/chippy/src/emu/gpu.rs`, `Display`
  the alternate framebuffer draft of `src/chippy/src/display.rs`;
* `Input` embeds the key pad of `src/chippy/src/emu/input.rs`;
* `Vm` with `Vm.execute_instruction` and `Vm.cycle` embeds the execution
  engine of `src/chippy/src/emu/vm.rs`.

Machine integers are modelled as `Nat` with explicit wrap-around (`% 256`,
`% 65536`) where the Rust code relies on wrapping; Rust panics (index out of
bounds, integer underflow) are modelled by returning `none`.
-/

namespace Chippy

/-- `TargetSourcePair` of instruction.rs: two register nibbles. -/
structure TargetSourcePair where
  target : Nat
  source : Nat
deriving DecidableEq

/-- `RegisterValuePair` of instruction.rs: a register nibble and an immediate byte. -/
structure RegisterValuePair where
  register : Nat
  value : Nat
deriving DecidableEq

/-- The `Instruction` enum of instruction.rs: the decoded form of a 16-bit opcode. -/
inductive Instruction where
  | CallMachineCode (addr : Nat)
  | ClearDisplay
  | Return
  | Jump (addr : Nat)
  | Call (addr : Nat)
  | SkipIfEq (rv : RegisterValuePair)
  | SkipIfNeq (rv : RegisterValuePair)
  | SkipIfRegEq (ts : TargetSourcePair)
  | SetReg (rv : RegisterValuePair)
  | AddValueToReg (rv : RegisterValuePair)
  | SetRegXToRegY (ts : TargetSourcePair)
  | BitXOrY (ts : TargetSourcePair)
  | BitXAndY (ts : TargetSourcePair)
  | BitXXorY (ts : TargetSourcePair)
  | AddYToX (ts : TargetSourcePair)
  | SubYFromX (ts : TargetSourcePair)
  | ShiftRight (ts : TargetSourcePair)
  | SubXFromYIntoX (ts : TargetSourcePair)
  | ShiftLeft (ts : TargetSourcePair)
  | SkipIfDifferent (ts : TargetSourcePair)
  | SetI (addr : Nat)
  | JumpNPlusPC (addr : Nat)
  | Random (rv : RegisterValuePair)
  | Draw (x y n : Nat)
  | SkipIfKeyPressed (register : Nat)
  | SkipIfNotKeyPressed (register : Nat)
  | SetXAsDT (register : Nat)
  | WaitInputStoreIn (register : Nat)
  | SetDTAsX (register : Nat)
  | SetSTAsX (register : Nat)
  | AddXToI (register : Nat)
  | SetIToFontSprite (register : Nat)
  | StoreBCD (register : Nat)
  | DumpRegisters (register : Nat)
  | LoadRegisters (register : Nat)
  | Invalid (code : Nat)
deriving DecidableEq

/-- `as_ts_pair` of instruction.rs. -/
def as_ts_pair (target source : Nat) : TargetSourcePair := ⟨target, source⟩

/-- `as_rv_pair` of instruction.rs: `value = (c1 << 4) | c2` on `u8`
(the shift wraps at 8 bits, hence the `% 256`). -/
def as_rv_pair (register c1 c2 : Nat) : RegisterValuePair :=
  ⟨register, ((c1 <<< 4) % 256) ||| c2⟩

/-- `as_nnn` of instruction.rs: low 12 bits of the opcode. -/
def as_nnn (opcode : Nat) : Nat := opcode &&& 0xFFF

/-- `as_nibble_array` of instruction.rs: the four hex nibbles, most significant first. -/
def as_nibble_array (opcode : Nat) : Nat × Nat × Nat × Nat :=
  (((opcode &&& 0xF000) >>> 12), ((opcode &&& 0x0F00) >>> 8),
   ((opcode &&& 0x00F0) >>> 4), (opcode &&& 0x000F))

/-- `pack_xkk` of instruction.rs. -/
def pack_xkk (rv : RegisterValuePair) : Nat :=
  ((rv.register &&& 0xF) <<< 8) + rv.value

/-- `pack_xyn` of instruction.rs. -/
def pack_xyn (x y n : Nat) : Nat := (x <<< 8) + (y <<< 4) + n

/-- `pack_tsn` of instruction.rs. -/
def pack_tsn (ts : TargetSourcePair) (n : Nat) : Nat :=
  pack_xyn ts.target ts.source n

/-- `Instruction::parse` of instruction.rs: total decoder from a 16-bit opcode.
The Rust source is a single `match` on the nibble array; each `if` row below
is one match arm, tested in the arm order of the source, so first-match
semantics is preserved.  `n.1`, `n.2.1`, `n.2.2.1`, `n.2.2.2` are the four
nibbles, most significant first. -/
def Instruction.parse (opcode : Nat) : Instruction :=
  let n := as_nibble_array opcode
  if n.1 = 0x0 ∧ n.2.1 = 0x0 ∧ n.2.2.1 = 0xE ∧ n.2.2.2 = 0x0 then .ClearDisplay
  else if n.1 = 0x0 ∧ n.2.1 = 0x0 ∧ n.2.2.1 = 0xE ∧ n.2.2.2 = 0xE then .Return
  else if n.1 = 0x0 then .CallMachineCode (as_nnn opcode)
  else if n.1 = 0x1 then .Jump (as_nnn opcode)
  else if n.1 = 0x2 then .Call (as_nnn opcode)
  else if n.1 = 0x3 then .SkipIfEq (as_rv_pair n.2.1 n.2.2.1 n.2.2.2)
  else if n.1 = 0x4 then .SkipIfNeq (as_rv_pair n.2.1 n.2.2.1 n.2.2.2)
  else if n.1 = 0x5 ∧ n.2.2.2 = 0x0 then .SkipIfRegEq (as_ts_pair n.2.1 n.2.2.1)
  else if n.1 = 0x6 then .SetReg (as_rv_pair n.2.1 n.2.2.1 n.2.2.2)
  else if n.1 = 0x7 then .AddValueToReg (as_rv_pair n.2.1 n.2.2.1 n.2.2.2)
  else if n.1 = 0x8 ∧ n.2.2.2 = 0x0 then .SetRegXToRegY (as_ts_pair n.2.1 n.2.2.1)
  else if n.1 = 0x8 ∧ n.2.2.2 = 0x1 then .BitXOrY (as_ts_pair n.2.1 n.2.2.1)
  else if n.1 = 0x8 ∧ n.2.2.2 = 0x2 then .BitXAndY (as_ts_pair n.2.1 n.2.2.1)
  else if n.1 = 0x8 ∧ n.2.2.2 = 0x3 then .BitXXorY (as_ts_pair n.2.1 n.2.2.1)
  else if n.1 = 0x8 ∧ n.2.2.2 = 0x4 then .AddYToX (as_ts_pair n.2.1 n.2.2.1)
  else if n.1 = 0x8 ∧ n.2.2.2 = 0x5 then .SubYFromX (as_ts_pair n.2.1 n.2.2.1)
  else if n.1 = 0x8 ∧ n.2.2.2 = 0x6 then .ShiftRight (as_ts_pair n.2.1 n.2.2.1)
  else if n.1 = 0x8 ∧ n.2.2.2 = 0x7 then .SubXFromYIntoX (as_ts_pair n.2.1 n.2.2.1)
  else if n.1 = 0x8 ∧ n.2.2.2 = 0xE then .ShiftLeft (as_ts_pair n.2.1 n.2.2.1)
  else if n.1 = 0x9 ∧ n.2.2.2 = 0x0 then .SkipIfDifferent (as_ts_pair n.2.1 n.2.2.1)
  else if n.1 = 0xA then .SetI (as_nnn opcode)
  else if n.1 = 0xB then .JumpNPlusPC (as_nnn opcode)
  else if n.1 = 0xC then .Random (as_rv_pair n.2.1 n.2.2.1 n.2.2.2)
  else if n.1 = 0xD then .Draw n.2.1 n.2.2.1 n.2.2.2
  else if n.1 = 0xE ∧ n.2.2.1 = 0x9 ∧ n.2.2.2 = 0xE then .SkipIfKeyPressed n.2.1
  else if n.1 = 0xE ∧ n.2.2.1 = 0xA ∧ n.2.2.2 = 0x1 then .SkipIfNotKeyPressed n.2.1
  else if n.1 = 0xF ∧ n.2.2.1 = 0x0 ∧ n.2.2.2 = 0x7 then .SetXAsDT n.2.1
  else if n.1 = 0xF ∧ n.2.2.1 = 0x0 ∧ n.2.2.2 = 0xA then .WaitInputStoreIn n.2.1
  else if n.1 = 0xF ∧ n.2.2.1 = 0x1 ∧ n.2.2.2 = 0x5 then .SetDTAsX n.2.1
  else if n.1 = 0xF ∧ n.2.2.1 = 0x1 ∧ n.2.2.2 = 0x8 then .SetSTAsX n.2.1
  else if n.1 = 0xF ∧ n.2.2.1 = 0x1 ∧ n.2.2.2 = 0xE then .AddXToI n.2.1
  else if n.1 = 0xF ∧ n.2.2.1 = 0x2 ∧ n.2.2.2 = 0x9 then .SetIToFontSprite n.2.1
  else if n.1 = 0xF ∧ n.2.2.1 = 0x3 ∧ n.2.2.2 = 0x3 then .StoreBCD n.2.1
  else if n.1 = 0xF ∧ n.2.2.1 = 0x5 ∧ n.2.2.2 = 0x5 then .DumpRegisters n.2.1
  else if n.1 = 0xF ∧ n.2.2.1 = 0x6 ∧ n.2.2.2 = 0x5 then .LoadRegisters n.2.1
  else .Invalid opcode

/-- `Instruction::to_u16` of instruction.rs: the inverse encoding. -/
def Instruction.to_u16 : Instruction → Nat
  | Instruction.CallMachineCode addr => (0x0 <<< 12) + addr
  | Instruction.ClearDisplay => 0x00E0
  | Instruction.Return => 0x00EE
  | Instruction.Jump addr => (0x1 <<< 12) + addr
  | Instruction.Call addr => (0x2 <<< 12) + addr
  | Instruction.SkipIfEq rv => (0x3 <<< 12) + pack_xkk rv
  | Instruction.SkipIfNeq rv => (0x4 <<< 12) + pack_xkk rv
  | Instruction.SkipIfRegEq ts => (0x5 <<< 12) + pack_tsn ts 0
  | Instruction.SetReg rv => (0x6 <<< 12) + pack_xkk rv
  | Instruction.AddValueToReg rv => (0x7 <<< 12) + pack_xkk rv
  | Instruction.SetRegXToRegY ts => (0x8 <<< 12) + pack_tsn ts 0
  | Instruction.BitXOrY ts => (0x8 <<< 12) + pack_tsn ts 1
  | Instruction.BitXAndY ts => (0x8 <<< 12) + pack_tsn ts 2
  | Instruction.BitXXorY ts => (0x8 <<< 12) + pack_tsn ts 3
  | Instruction.AddYToX ts => (0x8 <<< 12) + pack_tsn ts 4
  | Instruction.SubYFromX ts => (0x8 <<< 12) + pack_tsn ts 5
  | Instruction.ShiftRight ts => (0x8 <<< 12) + pack_tsn ts 6
  | Instruction.SubXFromYIntoX ts => (0x8 <<< 12) + pack_tsn ts 7
  | Instruction.ShiftLeft ts => (0x8 <<< 12) + pack_tsn ts 0xE
  | Instruction.SkipIfDifferent ts => (0x9 <<< 12) + pack_tsn ts 0
  | Instruction.SetI addr => (0xA <<< 12) + addr
  | Instruction.JumpNPlusPC addr => (0xB <<< 12) + addr
  | Instruction.Random rv => (0xC <<< 12) + pack_xkk rv
  | Instruction.Draw x y n => (0xD <<< 12) + pack_xyn x y n
  | Instruction.SkipIfKeyPressed register => (0xE <<< 12) + pack_xyn register 0x9 0xE
  | Instruction.SkipIfNotKeyPressed register => (0xE <<< 12) + pack_xyn register 0xA 0x1
  | Instruction.SetXAsDT register => (0xF <<< 12) + pack_xyn register 0x0 0x7
  | Instruction.WaitInputStoreIn register => (0xF <<< 12) + pack_xyn register 0x0 0xA
  | Instruction.SetDTAsX register => (0xF <<< 12) + pack_xyn register 0x1 0x5
  | Instruction.SetSTAsX register => (0xF <<< 12) + pack_xyn register 0x1 0x8
  | Instruction.AddXToI register => (0xF <<< 12) + pack_xyn register 0x1 0xE
  | Instruction.SetIToFontSprite register => (0xF <<< 12) + pack_xyn register 0x2 0x9
  | Instruction.StoreBCD register => (0xF <<< 12) + pack_xyn register 0x3 0x3
  | Instruction.DumpRegisters register => (0xF <<< 12) + pack_xyn register 0x5 0x5
  | Instruction.LoadRegisters register => (0xF <<< 12) + pack_xyn register 0x6 0x5
  | Instruction.Invalid code => code

/-! ## Arithmetic characterization of the bit manipulations -/

theorem and_mask_shiftRight (v k l : Nat) :
    (v &&& ((2 ^ l - 1) <<< k)) >>> k = v / 2 ^ k % 2 ^ l := by
  rw [← Nat.shiftRight_eq_div_pow, ← Nat.and_pow_two_sub_one_eq_mod]
  apply Nat.eq_of_testBit_eq
  intro i
  simp only [Nat.testBit_shiftRight, Nat.testBit_and, Nat.testBit_shiftLeft,
    Nat.testBit_two_pow_sub_one, Nat.add_sub_cancel_left, Nat.le_add_right,
    ge_iff_le]
  simp [Bool.and_comm]

theorem nib0_eq (v : Nat) : (as_nibble_array v).1 = v / 4096 % 16 := by
  show (v &&& 0xF000) >>> 12 = v / 4096 % 16
  have h : (0xF000 : Nat) = (2 ^ 4 - 1) <<< 12 := by decide
  rw [h, and_mask_shiftRight]; norm_num

theorem nib1_eq (v : Nat) : (as_nibble_array v).2.1 = v / 256 % 16 := by
  show (v &&& 0x0F00) >>> 8 = v / 256 % 16
  have h : (0x0F00 : Nat) = (2 ^ 4 - 1) <<< 8 := by decide
  rw [h, and_mask_shiftRight]; norm_num

theorem nib2_eq (v : Nat) : (as_nibble_array v).2.2.1 = v / 16 % 16 := by
  show (v &&& 0x00F0) >>> 4 = v / 16 % 16
  have h : (0x00F0 : Nat) = (2 ^ 4 - 1) <<< 4 := by decide
  rw [h, and_mask_shiftRight]; norm_num

theorem nib3_eq (v : Nat) : (as_nibble_array v).2.2.2 = v % 16 := by
  show v &&& 0x000F = v % 16
  have h : (0x000F : Nat) = 2 ^ 4 - 1 := by norm_num
  rw [h, Nat.and_pow_two_sub_one_eq_mod]

theorem as_nnn_eq (v : Nat) : as_nnn v = v % 4096 := by
  show v &&& 0xFFF = v % 4096
  have h : (0xFFF : Nat) = 2 ^ 12 - 1 := by norm_num
  rw [h, Nat.and_pow_two_sub_one_eq_mod]

/-- The immediate byte assembled by `as_rv_pair` from the two low nibbles of
`v` is the low byte of `v`. -/
theorem rv_value_eq (v : Nat) :
    (((v / 16 % 16) <<< 4) % 256) ||| (v % 16) = v % 256 := by
  rw [Nat.shiftLeft_eq]
  have h : v / 16 % 16 * 2 ^ 4 % 256 = 2 ^ 4 * (v / 16 % 16) := by
    have : v / 16 % 16 < 16 := Nat.mod_lt _ (by norm_num)
    norm_num; omega
  rw [h, ← Nat.mul_add_lt_is_or (by omega : v % 16 < 2 ^ 4)]
  omega

/-- `x &&& 0xF` is `x % 16`. -/
theorem and_fifteen (x : Nat) : x &&& 15 = x % 16 := by
  have h : (15 : Nat) = 2 ^ 4 - 1 := by norm_num
  rw [h, Nat.and_pow_two_sub_one_eq_mod]

theorem shl12_eq (x : Nat) : x <<< 12 = x * 4096 := by
  rw [Nat.shiftLeft_eq]

theorem shl8_eq (x : Nat) : x <<< 8 = x * 256 := by
  rw [Nat.shiftLeft_eq]

theorem shl4_eq (x : Nat) : x <<< 4 = x * 16 := by
  rw [Nat.shiftLeft_eq]

/-- `rv_value_eq` with the shift already written as a multiplication. -/
theorem rv_value_eq2 (v : Nat) :
    v / 16 % 16 * 16 % 256 ||| v % 16 = v % 256 := by
  have h := rv_value_eq v
  rwa [shl4_eq] at h

set_option maxHeartbeats 1600000 in
set_option linter.unnecessarySeqFocus false in
/-- Core round-trip fact shared by the decode/encode claims: re-encoding any
decoded 16-bit opcode gives back the opcode. -/
theorem to_u16_parse (v : Nat) (h : v < 65536) :
    Instruction.to_u16 (Instruction.parse v) = v := by
  have ha : (as_nibble_array v).1 = v / 4096 % 16 := nib0_eq v
  have hb : (as_nibble_array v).2.1 = v / 256 % 16 := nib1_eq v
  have hc : (as_nibble_array v).2.2.1 = v / 16 % 16 := nib2_eq v
  have hd : (as_nibble_array v).2.2.2 = v % 16 := nib3_eq v
  rcases hn : as_nibble_array v with ⟨a, b, c, d⟩
  rw [hn] at ha hb hc hd
  simp only at ha hb hc hd
  subst ha hb hc hd
  unfold Instruction.parse
  rw [hn]
  dsimp only
  have hv0 : v / 4096 % 16 < 16 := Nat.mod_lt _ (by norm_num)
  revert hv0
  generalize hA : v / 4096 % 16 = a
  intro hv0
  interval_cases a <;>
    simp only [Nat.reduceEqDiff, false_and, true_and, and_false, and_true,
      if_false, if_true, reduceIte] <;>
    first
    | (split_ifs <;>
        (simp only [Instruction.to_u16, as_rv_pair, as_ts_pair, pack_xkk,
          pack_tsn, pack_xyn, as_nnn_eq, and_fifteen, shl12_eq, shl8_eq,
          shl4_eq, rv_value_eq, rv_value_eq2] <;> omega))
    | (simp only [Instruction.to_u16, as_rv_pair, as_ts_pair, pack_xkk,
        pack_tsn, pack_xyn, as_nnn_eq, and_fifteen, shl12_eq, shl8_eq,
        shl4_eq, rv_value_eq, rv_value_eq2] <;> omega)

/-! ## Framebuffers: `Gpu` of emu/gpu.rs and the alternate `Display` of display.rs -/

/-- `SCREEN_WIDTH` of gpu.rs and display.rs. -/
def SCREEN_WIDTH : Nat := 64

/-- `SCREEN_HEIGHT` of gpu.rs and display.rs. -/
def SCREEN_HEIGHT : Nat := 32

/-- The `Gpu` struct of gpu.rs: row-major pixel grid plus dirty flag. -/
structure Gpu where
  memory : List Bool
  pending_draw : Bool
deriving DecidableEq

/-- The free function `index` of gpu.rs: toroidal addressing, coordinates
taken modulo the grid dimensions. -/
def index (x y : Nat) : Nat :=
  (y % SCREEN_HEIGHT) * SCREEN_WIDTH + (x % SCREEN_WIDTH)

/-- `Gpu::new` of gpu.rs. -/
def Gpu.new : Gpu :=
  ⟨List.replicate (SCREEN_WIDTH * SCREEN_HEIGHT) false, false⟩

/-- `Gpu::get` of gpu.rs. -/
def Gpu.get (g : Gpu) (x y : Nat) : Bool :=
  g.memory.getD (index x y) false

/-- `Gpu::set` of gpu.rs: writes the pixel and accumulates the dirty flag
whenever the stored value actually changes. -/
def Gpu.set (g : Gpu) (x y : Nat) (value : Bool) : Gpu :=
  { memory := g.memory.set (index x y) value,
    pending_draw := g.pending_draw || (g.memory.getD (index x y) false != value) }

/-- `Gpu::toggle` of gpu.rs: XORs `value` into the pixel and returns the
pixel value from before the write. -/
def Gpu.toggle (g : Gpu) (x y : Nat) (value : Bool) : Bool × Gpu :=
  let current := g.get x y
  (current, g.set x y (current.xor value))

/-- `Gpu::clear` of gpu.rs. -/
def Gpu.clear (g : Gpu) : Gpu :=
  let g1 := (List.range SCREEN_HEIGHT).foldl (fun gy y =>
    (List.range SCREEN_WIDTH).foldl (fun gx x => gx.set x y false) gy) g
  { g1 with pending_draw := false }

/-- `Gpu::draw` of gpu.rs.  For each sprite row `yy` and bit position `xx`
(bit 0 first), the bit is XOR-toggled into the pixel at `(x + 7 - xx, y + y)`
-- the row coordinate `y + y` and the collision accumulation
`collision |= toggle(..)` are exactly as in the source.  Returns the `u8`
collision flag and the updated framebuffer. -/
def Gpu.draw (g : Gpu) (x y : Nat) (bytes : List Nat) : Nat × Gpu :=
  let r := (List.range bytes.length).foldl (fun acc yy =>
    (List.range 8).foldl (fun acc2 xx =>
      let bit := ((bytes.getD yy 0) >>> xx) &&& 1 != 0
      let t := acc2.2.toggle (x + 7 - xx) (y + y) bit
      (acc2.1 || t.1, t.2)) acc) (false, g)
  (if r.1 then 1 else 0, r.2)

/-- The `Display` struct of display.rs (alternate framebuffer draft). -/
structure Display where
  pixels : List Bool
deriving DecidableEq

/-- `Display::new` of display.rs. -/
def Display.new : Display :=
  ⟨List.replicate (SCREEN_WIDTH * SCREEN_HEIGHT) false⟩

/-- `Display::clear` of display.rs. -/
def Display.clear (_d : Display) : Display :=
  ⟨List.replicate (SCREEN_WIDTH * SCREEN_HEIGHT) false⟩

/-- `Display::set_pixel` of display.rs: plain row-major indexing, no wrap. -/
def Display.set_pixel (d : Display) (x y : Nat) (value : Bool) : Display :=
  ⟨d.pixels.set (y * SCREEN_WIDTH + x) value⟩

/-- `Display::get_pixel` of display.rs. -/
def Display.get_pixel (d : Display) (x y : Nat) : Bool :=
  d.pixels.getD (y * SCREEN_WIDTH + x) false

/-- `Display::xor_pixel` of display.rs: XORs the new value in and reports
whether a previously set pixel became unset. -/
def Display.xor_pixel (d : Display) (x y : Nat) (new_value : Bool) : Bool × Display :=
  let current := d.get_pixel x y
  let new_pixel := current.xor new_value
  (current && !new_pixel, d.set_pixel x y new_pixel)

/-- `Display::draw` of display.rs.  Row `line_number` is drawn only if
`line_number + y < SCREEN_HEIGHT` and column `col` only if
`col + x < SCREEN_WIDTH` (clipping, not wrapping); column 0 is the most
significant bit, matching the `{:08b}` rendering of the row byte in the
source. -/
def Display.draw (d : Display) (x y : Nat) (sprite : List Nat) : Nat × Display :=
  sprite.enum.foldl (fun acc p =>
    if p.1 + y < SCREEN_HEIGHT then
      (List.range 8).foldl (fun acc2 col =>
        let pixel := ((p.2 >>> (7 - col)) &&& 1) != 0
        if col + x < SCREEN_WIDTH then
          let r := acc2.2.xor_pixel (x + col) (y + p.1) pixel
          ((if r.1 then 1 else acc2.1), r.2)
        else acc2) acc
    else acc) (0, d)

/-! ## Input pad of emu/input.rs -/

/-- The `Input` struct of emu/input.rs: 16 key states.  Keys (`Key` enum in
the source) are 4-bit codes `0x0`..`0xF`. -/
structure Input where
  keys : List Bool
deriving DecidableEq

/-- `Input::new` of emu/input.rs. -/
def Input.new : Input := ⟨List.replicate 16 false⟩

/-- `Input::is_pressed` of emu/input.rs; `key` is an arbitrary `u8`, so the
array access can go out of bounds (`none`). -/
def Input.is_pressed (inp : Input) (key : Nat) : Option Bool :=
  inp.keys.get? key

/-- `Input::clear` of emu/input.rs. -/
def Input.clear (_inp : Input) : Input := ⟨List.replicate 16 false⟩

/-- `Input::key_up` of emu/input.rs; a `Key` value is always in range. -/
def Input.key_up (inp : Input) (key : Nat) : Input :=
  ⟨inp.keys.set key false⟩

/-- `Input::key_down` of emu/input.rs. -/
def Input.key_down (inp : Input) (key : Nat) : Input :=
  ⟨inp.keys.set key true⟩

/-! ## Execution engine of emu/vm.rs -/

/-- `INITIAL_PROGRAM_COUNTER` of emu/vm.rs. -/
def INITIAL_PROGRAM_COUNTER : Nat := 0x200

/-- `MEMORY_SIZE` of emu/vm.rs. -/
def MEMORY_SIZE : Nat := 4096

/-- `MEMORY_START` of emu/vm.rs. -/
def MEMORY_START : Nat := 512

/-- `REGISTER_SIZE` of emu/vm.rs. -/
def REGISTER_SIZE : Nat := 16

/-- `STACK_SIZE` of emu/vm.rs. -/
def STACK_SIZE : Nat := 16

/-- The `ProgramCounter` enum of emu/vm.rs: how the program counter advances
after one instruction. -/
inductive ProgramCounter where
  | Next
  | Skip
  | Jump (addr : Nat)
deriving DecidableEq

/-- `skip_if` of emu/vm.rs. -/
def skip_if (condition : Bool) : ProgramCounter :=
  if condition then ProgramCounter.Skip else ProgramCounter.Next

/-- The `Vm` struct of emu/vm.rs.

Modelled from the spec: the `display` field of the Rust struct has type
`emu::display::Display`, whose source file is not in the tree (only this
use site is).  Per the spec the engine framebuffer is the 64x32 grid with a
pending-redraw flag -- which is the `Gpu` of emu/gpu.rs, whose `clear` and
`draw` signatures match the calls made here -- so the field is modelled with
`Gpu`. -/
structure Vm where
  display : Gpu
  input : Input
  memory : List Nat
  registers : List Nat
  stack : List Nat
  stack_pointer : Nat
  index : Nat
  program_counter : Nat
  deplay_timer : Nat
  sound_timer : Nat
  wait_for_key : Option Nat
  should_draw : Bool
deriving DecidableEq

/-- `Vm::load` of emu/vm.rs: copy the buffer into memory from `MEMORY_START`. -/
def Vm.load (vm : Vm) (buffer : List Nat) : Vm :=
  { vm with
    memory := buffer.enum.foldl (fun m p => m.set (p.1 + MEMORY_START) p.2) vm.memory }

/-- `Vm::get_register` of emu/vm.rs; an out-of-range register index is a
Rust bounds panic, hence `none`. -/
def Vm.get_register (vm : Vm) (register : Nat) : Option Nat :=
  vm.registers.get? register

/-- `Vm::set_register` of emu/vm.rs. -/
def Vm.set_register (vm : Vm) (register value : Nat) : Option Vm :=
  if register < vm.registers.length then
    some { vm with registers := vm.registers.set register value }
  else none

/-- `Vm::set_vf_register` of emu/vm.rs: `registers[0xF] = value`, always in
bounds for the 16-entry register file. -/
def Vm.set_vf_register (vm : Vm) (value : Nat) : Vm :=
  { vm with registers := vm.registers.set 0xF value }

/-- `Vm::set_vf_confitional` of emu/vm.rs (source spelling kept). -/
def Vm.set_vf_confitional (vm : Vm) (conditional : Bool) : Vm :=
  vm.set_vf_register (if conditional then 1 else 0)

/-- `Vm::push_stack` of emu/vm.rs: stores `pc + 2` at the stack pointer and
increments it; writing at `stack_pointer = 16` is a bounds panic (`none`). -/
def Vm.push_stack (vm : Vm) : Option Vm :=
  if vm.stack_pointer < vm.stack.length then
    some { vm with
      stack := vm.stack.set vm.stack_pointer ((vm.program_counter + 2) % 65536),
      stack_pointer := vm.stack_pointer + 1 }
  else none

/-- `Vm::pop_stack` of emu/vm.rs: decrementing `stack_pointer = 0` is an
integer-underflow / bounds panic (`none`). -/
def Vm.pop_stack (vm : Vm) : Option (Nat × Vm) :=
  if vm.stack_pointer = 0 then none
  else do
    let sp := vm.stack_pointer - 1
    let value ← vm.stack.get? sp
    some (value, { vm with stack_pointer := sp })

/-- `Vm::get_memory` of emu/vm.rs. -/
def Vm.get_memory (vm : Vm) (i : Nat) : Option Nat :=
  vm.memory.get? i

/-- `Vm::set_memory` of emu/vm.rs. -/
def Vm.set_memory (vm : Vm) (i value : Nat) : Option Vm :=
  if i < vm.memory.length then
    some { vm with memory := vm.memory.set i value }
  else none

/-- The `0..=limit` loop of the `DumpRegisters` arm of
`Vm::execute_instruction`: write `V0..Vlimit` to memory at `I`, advancing
`I` after each byte. -/
def Vm.dump_loop : Vm → List Nat → Option Vm
  | vm, [] => some vm
  | vm, r :: rest => do
    let value ← vm.get_register r
    let vm1 ← vm.set_memory vm.index value
    Vm.dump_loop { vm1 with index := (vm1.index + 1) % 65536 } rest

/-- The `0..=limit` loop of the `LoadRegisters` arm of
`Vm::execute_instruction`: read memory at `I` into `V0..Vlimit`, advancing
`I` after each byte. -/
def Vm.load_loop : Vm → List Nat → Option Vm
  | vm, [] => some vm
  | vm, r :: rest => do
    let value ← vm.get_memory vm.index
    let vm1 ← vm.set_register r value
    Vm.load_loop { vm1 with index := (vm1.index + 1) % 65536 } rest

/-- The match body of `Vm::execute_instruction` of emu/vm.rs, one arm per
`Instruction` variant (the Rust function parses the opcode and matches on
the result; `Vm.execute_instruction` below composes this with the parse).
Returns the successor state and the `ProgramCounter` action, or `none`
where the Rust code panics. -/
def Vm.run_instruction (vm : Vm) : Instruction → Option (Vm × ProgramCounter)
  | Instruction.CallMachineCode _ => some (vm, ProgramCounter.Next)
  | Instruction.ClearDisplay => some (vm, ProgramCounter.Next)
  | Instruction.Return => do
    let r ← vm.pop_stack
    some (r.2, ProgramCounter.Jump r.1)
  | Instruction.Jump addr => some (vm, ProgramCounter.Jump addr)
  | Instruction.Call addr => do
    let vm1 ← vm.push_stack
    some (vm1, ProgramCounter.Jump addr)
  | Instruction.SkipIfEq ⟨register, value⟩ => do
    let rv ← vm.get_register register
    some (vm, skip_if (rv == value))
  | Instruction.SkipIfNeq ⟨register, value⟩ => do
    let rv ← vm.get_register register
    some (vm, skip_if (rv != value))
  | Instruction.SkipIfRegEq ⟨target, source⟩ => do
    let tv ← vm.get_register target
    let sv ← vm.get_register source
    some (vm, skip_if (tv == sv))
  | Instruction.SetReg ⟨register, value⟩ => do
    let vm1 ← vm.set_register register value
    some (vm1, ProgramCounter.Next)
  | Instruction.AddValueToReg ⟨register, value⟩ => do
    let rv ← vm.get_register register
    let vm1 ← vm.set_register register ((rv + value) % 256)
    some (vm1, ProgramCounter.Next)
  | Instruction.SetRegXToRegY ⟨target, source⟩ => do
    let sv ← vm.get_register source
    let vm1 ← vm.set_register target sv
    some (vm1, ProgramCounter.Next)
  | Instruction.BitXOrY ⟨target, source⟩ => do
    let tv ← vm.get_register target
    let sv ← vm.get_register source
    let vm1 ← vm.set_register target (tv ||| sv)
    some (vm1, ProgramCounter.Next)
  | Instruction.BitXAndY ⟨target, source⟩ => do
    let tv ← vm.get_register target
    let sv ← vm.get_register source
    let vm1 ← vm.set_register target (tv &&& sv)
    some (vm1, ProgramCounter.Next)
  | Instruction.BitXXorY ⟨target, source⟩ => do
    let tv ← vm.get_register target
    let sv ← vm.get_register source
    let vm1 ← vm.set_register target (tv ^^^ sv)
    some (vm1, ProgramCounter.Next)
  | Instruction.AddYToX ⟨target, source⟩ => do
    let tv ← vm.get_register target
    let sv ← vm.get_register source
    let vm1 := vm.set_vf_confitional (256 ≤ tv + sv)
    let vm2 ← vm1.set_register target ((tv + sv) % 256)
    some (vm2, ProgramCounter.Next)
  | Instruction.SubYFromX ⟨target, source⟩ => do
    let tv ← vm.get_register target
    let sv ← vm.get_register source
    let vm1 := vm.set_vf_confitional (¬ tv < sv)
    let vm2 ← vm1.set_register target ((tv + 256 - sv) % 256)
    some (vm2, ProgramCounter.Next)
  | Instruction.ShiftRight ⟨target, _source⟩ => do
    let value ← vm.get_register target
    let vm1 := vm.set_vf_register (value &&& 0xF)
    let vm2 ← vm1.set_register target (value >>> 1)
    some (vm2, ProgramCounter.Next)
  | Instruction.SubXFromYIntoX ⟨target, source⟩ => do
    let tv ← vm.get_register target
    let sv ← vm.get_register source
    let vm1 := vm.set_vf_confitional (¬ sv < tv)
    let vm2 ← vm1.set_register target ((sv + 256 - tv) % 256)
    some (vm2, ProgramCounter.Next)
  | Instruction.ShiftLeft ⟨target, _source⟩ => do
    let value ← vm.get_register target
    let vm1 := vm.set_vf_register (value >>> 7)
    let vm2 ← vm1.set_register target ((value <<< 1) % 256)
    some (vm2, ProgramCounter.Next)
  | Instruction.SkipIfDifferent ⟨target, source⟩ => do
    let tv ← vm.get_register target
    let sv ← vm.get_register source
    some (vm, skip_if (tv != sv))
  | Instruction.SetI value => some ({ vm with index := value }, ProgramCounter.Next)
  | Instruction.JumpNPlusPC addr => do
    let v0 ← vm.get_register 0x0
    some (vm, ProgramCounter.Jump ((addr + v0) % 65536))
  | Instruction.Random ⟨register, value⟩ => do
    let vm1 ← vm.set_register register (0x5d &&& value)
    some (vm1, ProgramCounter.Next)
  | Instruction.Draw x y n => do
    let vx ← vm.get_register x
    let vy ← vm.get_register y
    if vm.index + n ≤ vm.memory.length then
      let bytes := (vm.memory.drop vm.index).take n
      let r := vm.display.draw vx vy bytes
      let vm1 := vm.set_vf_register r.1
      some ({ vm1 with display := r.2, should_draw := true }, ProgramCounter.Next)
    else none
  | Instruction.SkipIfKeyPressed register => do
    let value ← vm.get_register register
    let pressed ← vm.input.is_pressed value
    some (vm, skip_if pressed)
  | Instruction.SkipIfNotKeyPressed register => do
    let value ← vm.get_register register
    let pressed ← vm.input.is_pressed value
    some (vm, skip_if (!pressed))
  | Instruction.SetXAsDT register => do
    let tv ← vm.get_register register
    let vm1 ← vm.set_register tv vm.deplay_timer
    some (vm1, ProgramCounter.Next)
  | Instruction.WaitInputStoreIn register => do
    let rv ← vm.get_register register
    some ({ vm with wait_for_key := some rv }, ProgramCounter.Next)
  | Instruction.SetDTAsX register => do
    let rv ← vm.get_register register
    some ({ vm with deplay_timer := rv }, ProgramCounter.Next)
  | Instruction.SetSTAsX register => do
    let rv ← vm.get_register register
    some ({ vm with sound_timer := rv }, ProgramCounter.Next)
  | Instruction.AddXToI register => do
    let rv ← vm.get_register register
    some ({ vm with index := (vm.index + rv) % 65536 }, ProgramCounter.Next)
  | Instruction.SetIToFontSprite register => do
    let rv ← vm.get_register register
    some ({ vm with index := (rv * 5) % 65536 }, ProgramCounter.Next)
  | Instruction.StoreBCD register => do
    let value ← vm.get_register register
    let vm1 ← vm.set_memory vm.index (value / 100)
    let vm2 ← vm1.set_memory (vm1.index + 1) (value % 100 / 10)
    let vm3 ← vm2.set_memory (vm2.index + 2) (value % 10)
    some (vm3, ProgramCounter.Next)
  | Instruction.DumpRegisters limit => do
    let vm1 ← vm.dump_loop (List.range (limit + 1))
    some (vm1, ProgramCounter.Next)
  | Instruction.LoadRegisters limit => do
    let vm1 ← vm.load_loop (List.range (limit + 1))
    some (vm1, ProgramCounter.Next)
  | Instruction.Invalid _ => some (vm, ProgramCounter.Next)

/-- `Vm::execute_instruction` of emu/vm.rs: parse the opcode, then apply the
matching arm. -/
def Vm.execute_instruction (vm : Vm) (opcode : Nat) : Option (Vm × ProgramCounter) :=
  vm.run_instruction (Instruction.parse opcode)

/-- `Vm::cycle` of emu/vm.rs: clear the `should_draw` flag, fetch the
big-endian opcode at the program counter, execute it and advance the
program counter.  Note that `wait_for_key` is not consulted anywhere in
this function (nor anywhere else in the engine). -/
def Vm.cycle (vm : Vm) : Option Vm := do
  let vm0 := if vm.should_draw then { vm with should_draw := false } else vm
  let position := vm0.program_counter
  let hi ← vm0.memory.get? position
  let lo ← vm0.memory.get? (position + 1)
  let opcode := (hi <<< 8) ||| lo
  let r ← vm0.execute_instruction opcode
  match r.2 with
  | ProgramCounter.Next =>
    some { r.1 with program_counter := (r.1.program_counter + 2) % 65536 }
  | ProgramCounter.Skip =>
    some { r.1 with program_counter := (r.1.program_counter + 4) % 65536 }
  | ProgramCounter.Jump addr =>
    some { r.1 with program_counter := addr }

/-- Execute a list of opcodes in order (used to state determinism of the
engine over an opcode sequence). -/
def Vm.run_opcodes : Vm → List Nat → Option Vm
  | vm, [] => some vm
  | vm, op :: rest => do
    let r ← vm.execute_instruction op
    r.1.run_opcodes rest

/-! ## Concrete engine states used by the claims

`vmBase` is the state built by `Vm::new` of emu/vm.rs, except that the font
table copied into low memory at construction comes from emu/font.rs, which
is not in the tree; the font bytes are irrelevant to every property below,
so low memory is left as zeroes. -/

def vmBase : Vm :=
  { display := Gpu.new
    input := Input.new
    memory := List.replicate MEMORY_SIZE 0
    registers := List.replicate REGISTER_SIZE 0
    stack := List.replicate STACK_SIZE 0
    stack_pointer := 0
    index := 0
    program_counter := INITIAL_PROGRAM_COUNTER
    deplay_timer := 0
    sound_timer := 0
    wait_for_key := none
    should_draw := false }

/-- State for the wait-for-key claim: `F00A` (wait for key, store in `V0`)
followed by `6105` (`V1 := 5`), loaded at `0x200`. -/
def vmC5 : Vm := vmBase.load [0xF0, 0x0A, 0x61, 0x05]

/-- State for the clear-display claim: opcode `00E0` at `0x200` and a lit
pixel at `(0, 0)`. -/
def vmC4 : Vm := { vmBase.load [0x00, 0xE0] with display := Gpu.new.set 0 0 true }

/-- State for the shift-right claim: `V1 = 2` (binary `10`, least
significant bit `0`). -/
def vmC6 : Vm := { vmBase with registers := (List.replicate REGISTER_SIZE 0).set 1 2 }

/-- State for the delay-timer claim: `V0 = 5`, delay timer `7`. -/
def vmC9 : Vm :=
  { vmBase with registers := (List.replicate REGISTER_SIZE 0).set 0 5, deplay_timer := 7 }

/-- State for the stack-overflow claim: stack pointer at capacity. -/
def vmFull : Vm := { vmBase with stack_pointer := STACK_SIZE }

/-- The framebuffer after one draw of the sprite `[0xF0]` at `(0, 0)`. -/
def gpuDrawn : Gpu := (Gpu.new.draw 0 0 [0xF0]).2

/-- A framebuffer whose only lit pixel is `(0, 0)`. -/
def gpuSet00 : Gpu := Gpu.new.set 0 0 true

/-- `index` is invariant under reducing the coordinates modulo the screen
dimensions. -/
theorem index_mod (x y : Nat) : index x y = index (x % 64) (y % 32) := by
  unfold index SCREEN_WIDTH SCREEN_HEIGHT
  omega

/-! ## The claims -/

/-- C1: for every 16-bit value `v`, decoding with `Instruction.parse` and
re-encoding with `Instruction.to_u16` returns exactly `v`, both for
recognized opcodes and for the `Invalid` catch-all. -/
theorem parse_to_u16_roundtrip (v : Nat) (h : v < 65536) :
    Instruction.to_u16 (Instruction.parse v) = v :=
  to_u16_parse v h

/-- Witness for C1 at the concrete opcode `0xF169` (which decodes to
`Invalid`) -- and the bound holds there. -/
theorem parse_to_u16_roundtrip_witness :
    (0xF169 : Nat) < 65536 ∧
      Instruction.to_u16 (Instruction.parse 0xF169) = 0xF169 :=
  ⟨by norm_num, parse_to_u16_roundtrip 0xF169 (by norm_num)⟩

/-- C2 counterexample: the claim quantifies over every representable
instruction value, but `Invalid 0x00E0` is representable, encodes to
`0x00E0`, and that re-decodes to `ClearDisplay`, not to `Invalid 0x00E0`. -/
theorem decode_encode_invalid_cex :
    Instruction.parse (Instruction.to_u16 (Instruction.Invalid 0x00E0)) ≠
      Instruction.Invalid 0x00E0 := by
  decide

/-- C2 (amended): `decode (encode i) = i` for every instruction `i` in the
image of the decoder, i.e. `parse (to_u16 (parse v)) = parse v` for every
16-bit `v`; this covers every `Invalid` value the decoder can produce. -/
theorem decode_encode_decode_eq (v : Nat) (h : v < 65536) :
    Instruction.parse (Instruction.to_u16 (Instruction.parse v)) =
      Instruction.parse v := by
  rw [to_u16_parse v h]

/-- Witness for the amended C2 at `v = 0x5AB7` (which decodes to
`Invalid`, the interesting case). -/
theorem decode_encode_decode_eq_witness :
    (0x5AB7 : Nat) < 65536 ∧
      Instruction.parse (Instruction.to_u16 (Instruction.parse 0x5AB7)) =
        Instruction.parse 0x5AB7 :=
  ⟨by norm_num, decode_encode_decode_eq 0x5AB7 (by norm_num)⟩

/-- C3: evaluation of the two draw implementations on the claim's example
and on a failing input.  `Gpu.draw` (the engine framebuffer of gpu.rs)
satisfies the example -- `[0xF0]` at `(0,0)` on a cleared screen reports no
collision, the identical second draw clears the four pixels and reports
collision -- but its collision flag is not "some pixel went set to unset":
drawing the all-zero sprite `[0x00]` over a lit pixel changes no pixel yet
reports collision `1`.  `Display.draw` of display.rs reports `0` on the
same no-transition input (it implements the claimed iff). -/
theorem gpu_draw_collision_not_transition :
    (Gpu.new.draw 0 0 [0xF0]).1 = 0 ∧
    (gpuDrawn.draw 0 0 [0xF0]).1 = 1 ∧
    (gpuDrawn.draw 0 0 [0xF0]).2.memory = Gpu.new.memory ∧
    (gpuSet00.draw 0 0 [0x00]).1 = 1 ∧
    (gpuSet00.draw 0 0 [0x00]).2.memory = gpuSet00.memory ∧
    ((Display.new.set_pixel 0 0 true).draw 0 0 [0x00]).1 = 0 ∧
    (Display.new.draw 0 0 [0xF0]).1 = 0 ∧
    ((Display.new.draw 0 0 [0xF0]).2.draw 0 0 [0xF0]).1 = 1 ∧
    ((Display.new.draw 0 0 [0xF0]).2.draw 0 0 [0xF0]).2.pixels = Display.new.pixels :=
  ⟨rfl, rfl, rfl, rfl, rfl, rfl, rfl, rfl, rfl⟩

set_option maxRecDepth 16384 in
/-- C4: executing opcode `00E0` (ClearDisplay) advances the program counter
to `pc + 2` but leaves the framebuffer untouched -- the lit pixel at
`(0, 0)` survives, because the ClearDisplay arm of
`Vm::execute_instruction` is a `TODO` no-op. -/
theorem clear_display_does_not_clear :
    vmC4.display.get 0 0 = true ∧
    (vmC4.cycle.map fun vm => (vm.display, vm.program_counter)) =
      some (vmC4.display, 0x202) :=
  ⟨rfl, rfl⟩

set_option maxRecDepth 16384 in
/-- C5: after executing `WaitInputStoreIn` the engine keeps executing.
From `vmC5`, the first cycle executes `F00A` and records the wait
(`wait_for_key = some 0`); with no key event supplied, the second cycle
nevertheless executes the following instruction `6105`, storing `5` in
`V1` -- `Vm::cycle` never consults `wait_for_key`. -/
theorem wait_for_key_not_blocking :
    (vmC5.cycle.map fun vm => (vm.wait_for_key, vm.program_counter)) =
      some (some 0, 0x202) ∧
    ((vmC5.cycle.bind Vm.cycle).map fun vm =>
        (vm.registers.get? 1, vm.wait_for_key, vm.program_counter)) =
      some (some 5, some 0, 0x204) :=
  ⟨rfl, rfl⟩

/-- C6: executing `ShiftRight` on `V1 = 2` (opcode `8106`) sets `VF` to
`2 &&& 0xF = 2`, not to the least-significant bit `2 &&& 1 = 0` the claim
requires; the shifted value `1` is stored correctly. -/
theorem shift_right_vf_low_nibble :
    (vmC6.execute_instruction 0x8106).map
        (fun r => (r.1.registers.get? 0xF, r.1.registers.get? 1, r.2)) =
      some (some 2, some 1, ProgramCounter.Next) ∧
    (2 : Nat) &&& 1 = 0 :=
  ⟨rfl, rfl⟩

/-- C7: executing `Call` with the stack pointer at capacity 16, or `Return`
with the stack pointer at 0, is a fault (`none`, the embedding of the Rust
bounds/underflow panic) -- execution does not continue to any state. -/
theorem stack_overflow_underflow_fault (vm : Vm) (addr : Nat)
    (hlen : vm.stack.length = STACK_SIZE) :
    (vm.stack_pointer = STACK_SIZE →
      vm.run_instruction (Instruction.Call addr) = none) ∧
    (vm.stack_pointer = 0 →
      vm.run_instruction Instruction.Return = none) := by
  constructor
  · intro hsp
    simp [Vm.run_instruction, Vm.push_stack, hlen, hsp, STACK_SIZE]
  · intro hsp
    simp [Vm.run_instruction, Vm.pop_stack, hsp]

/-- Witness for C7: a concrete engine with a full stack faults on `Call`,
and one with an empty stack faults on `Return`. -/
theorem stack_overflow_underflow_fault_witness :
    Vm.run_instruction vmFull (Instruction.Call 0x300) = none ∧
    Vm.run_instruction vmBase Instruction.Return = none :=
  ⟨(stack_overflow_underflow_fault vmFull 0x300 rfl).1 rfl,
   (stack_overflow_underflow_fault vmBase 0x300 rfl).2 rfl⟩

set_option maxRecDepth 16384 in
/-- C8: framebuffer addressing is toroidal.  `Gpu.get` and `Gpu.set` reduce
their coordinates modulo 64 and 32; concretely, drawing the sprite `[0x0F]`
at `(60, 0)` puts the four pixels that run past the right edge at columns
`0`..`3` of the same row instead of dropping them, and a draw at row `40`
(past the bottom edge) still lands on screen (at the wrapped row `16`,
since `Gpu.draw` doubles the `y` coordinate). -/
theorem framebuffer_toroidal :
    (∀ (g : Gpu) (x y : Nat), g.get x y = g.get (x % 64) (y % 32)) ∧
    (∀ (g : Gpu) (x y : Nat) (v : Bool), g.set x y v = g.set (x % 64) (y % 32) v) ∧
    (Gpu.new.draw 60 0 [0x0F]).2.get 0 0 = true ∧
    (Gpu.new.draw 60 0 [0x0F]).2.get 1 0 = true ∧
    (Gpu.new.draw 60 0 [0x0F]).2.get 2 0 = true ∧
    (Gpu.new.draw 60 0 [0x0F]).2.get 3 0 = true ∧
    (Gpu.new.draw 60 0 [0x0F]).2.get 60 0 = false ∧
    (Gpu.new.draw 0 40 [0x80]).2.get 0 16 = true := by
  refine ⟨?_, ?_, rfl, rfl, rfl, rfl, rfl, rfl⟩
  · intro g x y
    unfold Gpu.get
    rw [index_mod]
  · intro g x y v
    unfold Gpu.set
    rw [index_mod]

set_option maxRecDepth 16384 in
/-- C9: executing opcode `F007` (`SetXAsDT 0`) with `V0 = 5` and delay
timer `7` stores the timer into `V5` -- the register addressed by `V0`'s
value -- and leaves `V0` at `5`; the program counter advances normally. -/
theorem set_x_as_dt_indirect :
    (vmC9.execute_instruction 0xF007).map
        (fun r => (r.1.registers.get? 5, r.1.registers.get? 0, r.2)) =
      some (some 7, some 5, ProgramCounter.Next) :=
  rfl

/-- C10: the `Random` arm stores the fixed byte `0x5d &&& mask` -- there is
no entropy source -- and running any opcode sequence is a function of the
starting state, so equal engines stay equal. -/
theorem random_fixed_and_deterministic :
    (∀ (vm : Vm) (register mask : Nat), register < vm.registers.length →
      vm.run_instruction (Instruction.Random ⟨register, mask⟩) =
        some ({ vm with registers := vm.registers.set register (0x5d &&& mask) },
          ProgramCounter.Next)) ∧
    (∀ (ops : List Nat) (vm1 vm2 : Vm), vm1 = vm2 →
      vm1.run_opcodes ops = vm2.run_opcodes ops) := by
  constructor
  · intro vm register mask h
    simp [Vm.run_instruction, Vm.set_register, h]
  · intro ops vm1 vm2 h
    rw [h]

/-- Witness for C10: the Random arm at a concrete state and register, and
determinism on a concrete opcode sequence. -/
theorem random_fixed_and_deterministic_witness :
    Vm.run_instruction vmBase (Instruction.Random ⟨1, 0xAB⟩) =
      some ({ vmBase with registers := vmBase.registers.set 1 (0x5d &&& 0xAB) },
        ProgramCounter.Next) ∧
    Vm.run_opcodes vmBase [0xC1FF, 0x8106] = Vm.run_opcodes vmBase [0xC1FF, 0x8106] :=
  ⟨random_fixed_and_deterministic.1 vmBase 1 0xAB (by decide),
   random_fixed_and_deterministic.2 [0xC1FF, 0x8106] vmBase vmBase rfl⟩

end Chippy
